import Mathlib

/-
Shallow embedding of the BlackboardSync sync engine
(src/blackboard_sync/sync.py) and the Folder content node
(src/blackboard_sync/content/folder.py).

Datetimes are integers (seconds); `Path` objects are lists of path segments;
Python exceptions are a `PyError` value threaded next to the mutated state
(a function returns the state as mutated up to the point where the exception
was raised, plus `some e`), matching Python's in-place mutation semantics.
Cookie jars and sessions are opaque and modelled as natural numbers.
-/

/-- Python exceptions that the embedded code can raise or catch. -/
inductive PyError where
  | typeError
  | valueError
  | connectionError
  | attributeError
  | otherError
deriving Repr, DecidableEq

/-- Modelled from the spec: the configuration store (`SyncConfig`, from
src/blackboard_sync/config.py, which is not among the provided sources).
Per §6 it persists and restores `download_location` and the optional
`last_sync_time`; it is modelled as plain storage of those fields. -/
structure SyncConfig where
  last_sync_time : Option Int
  download_location : List String
deriving Repr, DecidableEq

/-- State of a `BlackboardSync` instance (sync.py, class `BlackboardSync`).
Field mapping to Python attributes: `sync_interval` is `_sync_interval`,
`next_sync` is `_next_sync`, `logged_in` is `_is_logged_in`, `force_flag`
is `_force_sync`, `syncing` is `_is_syncing`, `active` is `_is_active`,
`config` is `_config`, `cookies` is `_cookies`. `last_sync` is the stray instance
attribute created by the assignment `self.last_sync = ...` on line 139 of
sync.py (there is no property of that name; the property is
`last_sync_time`): `none` means the attribute was never created.
`error_log`, `jobs_run` and `auth_calls` are ghost observables recording,
respectively, the directories where `_log_exception` wrote a log file, the
number of `BlackboardDownload.download()` invocations, and the number of
`auth` invocations. -/
structure BlackboardSync where
  sync_interval : Int
  next_sync : Option Int
  logged_in : Bool
  force_flag : Bool
  syncing : Bool
  active : Bool
  config : SyncConfig
  sess : Option Nat
  cookies : Option Nat
  last_sync : Option Int
  error_log : List (List String)
  jobs_run : Nat
  auth_calls : Nat
deriving Repr, DecidableEq

/-- `BlackboardSync._max_retries` (sync.py line 49). -/
def max_retries : Nat := 3

/-- The locals of `_sync_task` (sync.py lines 127-128): `reload_session`
and `failed_attempts` live on the thread's stack, not on the instance. -/
structure LoopLocals where
  reload_session : Bool
  failed_attempts : Nat
deriving Repr, DecidableEq

/-- `BlackboardSync._update_next_sync` (sync.py lines 212-215):
`self._next_sync = self._config.last_sync_time + timedelta(seconds=self._sync_interval)`.
When `last_sync_time` is `None`, Python evaluates `None + timedelta(...)`,
which raises `TypeError`; the state is returned unchanged in that case. -/
def update_next_sync (s : BlackboardSync) : BlackboardSync × Option PyError :=
  match s.config.last_sync_time with
  | none => (s, some .typeError)
  | some t => ({ s with next_sync := some (t + s.sync_interval) }, none)

/-- The `last_sync_time` property setter (sync.py lines 206-210): store the
new value in the configuration, then recompute `_next_sync`. -/
def set_last_sync_time (s : BlackboardSync) (t : Option Int) :
    BlackboardSync × Option PyError :=
  update_next_sync { s with config := { s.config with last_sync_time := t } }

/-- The `outdated` property (sync.py lines 222-227): true when
`last_sync_time` is unset, otherwise `now >= self.next_sync`. Comparing a
datetime with `None` (reachable only if `_next_sync` was never computed)
raises `TypeError`. -/
def outdated (s : BlackboardSync) (now : Int) : Except PyError Bool :=
  match s.config.last_sync_time with
  | none => .ok true
  | some _ =>
    match s.next_sync with
    | none => .error .typeError
    | some nxt => .ok (decide (now ≥ nxt))

/-- `BlackboardSync.stop_sync` (sync.py lines 170-173). -/
def stop_sync (s : BlackboardSync) : BlackboardSync :=
  { s with active := false }

/-- `BlackboardSync.start_sync` (sync.py lines 163-168): sets the active
flag and spawns the sync thread (the thread itself is modelled by applying
`sync_task` to a list of tick inputs). -/
def start_sync (s : BlackboardSync) : BlackboardSync :=
  { s with active := true }

/-- `BlackboardSync.log_out` (sync.py lines 116-120): stop syncing, forget
the session, clear the logged-in flag. -/
def log_out (s : BlackboardSync) : BlackboardSync :=
  { stop_sync s with sess := none, logged_in := false }

/-- `BlackboardSync._log_exception` (sync.py lines 175-181): create
`<download_location>/log/` and append the exception to a dated file there.
Modelled as recording the log directory in the ghost `error_log`. -/
def log_exception (s : BlackboardSync) : BlackboardSync :=
  { s with error_log := s.error_log ++ [s.config.download_location ++ ["log"]] }

/-- `BlackboardSync.force_sync` (sync.py lines 183-186). -/
def force_sync (s : BlackboardSync) : BlackboardSync :=
  { s with force_flag := true }

/-- Modelled from the spec: `BlackboardSession(cookie_jar)`
(src/blackboard_sync/blackboard.py is not among the provided sources).
Per §6, `open_session(credential)` returns a session or raises on an
invalid credential; sync.py catches exactly `ValueError`. The oracle
`valid` decides which credentials the remote platform accepts. -/
def BlackboardSession (valid : Nat → Bool) (cookie_jar : Nat) : Except PyError Nat :=
  if valid cookie_jar then .ok cookie_jar else .error .valueError

/-- `BlackboardSync.auth` (sync.py lines 95-114): store the cookie jar in
`self._cookies`, try to build a `BlackboardSession`; on `ValueError` only
warn; on success store the session, set the logged-in flag and start
syncing. Returns `self._is_logged_in` (the current value, whatever the
attempt did). -/
def auth (valid : Nat → Bool) (s : BlackboardSync) (cookie_jar : Nat) :
    Bool × BlackboardSync :=
  let s1 := { s with cookies := some cookie_jar, auth_calls := s.auth_calls + 1 }
  match BlackboardSession valid cookie_jar with
  | .error _ => (s1.logged_in, s1)
  | .ok u_sess =>
    let s2 := start_sync { s1 with sess := some u_sess, logged_in := true }
    (s2.logged_in, s2)

/-- Modelled from the spec: the outcome of one `BlackboardDownload.download()`
run (src/blackboard_sync/download.py is not among the provided sources).
Per §4.2 and §7 a run returns the instant the pass began, raises `ValueError`
on session invalidation, raises `ConnectionError` on a transport failure, or
raises some other exception; sync.py's `try` block distinguishes exactly
these cases, so one run is one `JobResult` input. -/
inductive JobResult where
  | success (started : Int)
  | valueError
  | connectionError
  | otherError
deriving Repr, DecidableEq

/-- Sync.py lines 151-157, run after the `try` block of every attempted
job: log out when `failed_attempts >= self._max_retries`, then clear the
force-sync and is-syncing flags unconditionally. -/
def after_job (s : BlackboardSync) (l : LoopLocals) :
    BlackboardSync × LoopLocals × Option PyError :=
  let s1 := if l.failed_attempts ≥ max_retries then log_out s else s
  ({ s1 with force_flag := false, syncing := false }, l, none)

/-- One iteration of the `while self._is_active` body of
`BlackboardSync._sync_task` (sync.py lines 130-158), given the current
time and what this tick's download job does. `jobs_run` is incremented
exactly when `new_download.download()` is invoked. Only `ValueError` and
`ConnectionError` are caught; any other exception propagates (third
component `some e`) with the mutations made so far kept. -/
def sync_step (s : BlackboardSync) (l : LoopLocals) (now : Int) (job : JobResult) :
    BlackboardSync × LoopLocals × Option PyError :=
  match outdated s now with
  | .error e => (s, l, some e)
  | .ok stale =>
    if stale || s.force_flag then
      let s1 := { s with syncing := true, jobs_run := s.jobs_run + 1 }
      match job with
      | .success t =>
        after_job { s1 with last_sync := some t } { l with failed_attempts := 0 }
      | .valueError =>
        after_job (log_out s1) { l with reload_session := true }
      | .connectionError =>
        after_job (log_exception s1) { l with failed_attempts := l.failed_attempts + 1 }
      | .otherError => (s1, l, some .otherError)
    else (s, l, none)

/-- The loop of `BlackboardSync._sync_task` plus its epilogue (sync.py
lines 122-161). Each list element is one tick's `(now, job outcome)`;
an empty list with the loop still active is a truncated trace. When the
loop exits because `is_active` is false and `reload_session` was set, the
epilogue calls `self.auth(self._cookies)` once (an `AttributeError` if
`_cookies` was never assigned). An uncaught exception aborts the thread:
no further ticks run and the epilogue is skipped. -/
def sync_task_go (valid : Nat → Bool) :
    BlackboardSync → LoopLocals → List (Int × JobResult) →
    BlackboardSync × Option PyError
  | s, l, ticks =>
    if s.active then
      match ticks with
      | [] => (s, none)
      | (now, job) :: rest =>
        match sync_step s l now job with
        | (s1, l1, none) => sync_task_go valid s1 l1 rest
        | (s1, _, some e) => (s1, some e)
    else if l.reload_session then
      match s.cookies with
      | none => (s, some .attributeError)
      | some jar => ((auth valid s jar).2, none)
    else (s, none)

/-- `BlackboardSync._sync_task` entered fresh: `reload_session = False`,
`failed_attempts = 0` (sync.py lines 127-128). -/
def sync_task (valid : Nat → Bool) (s : BlackboardSync)
    (ticks : List (Int × JobResult)) : BlackboardSync × Option PyError :=
  sync_task_go valid s ⟨false, 0⟩ ticks

/-- `BlackboardSync.change_download_location` (sync.py lines 245-257):
when the new directory differs, store it in the configuration, and when
`redownload` is set, assign `None` through the `last_sync_time` setter. -/
def change_download_location (s : BlackboardSync) (new_dir : List String)
    (redownload : Bool) : BlackboardSync × Option PyError :=
  if new_dir ≠ s.config.download_location then
    let s1 := { s with config := { s.config with download_location := new_dir } }
    if redownload then set_last_sync_time s1 none else (s1, none)
  else (s, none)

/-- A freshly constructed `BlackboardSync` (sync.py `__init__`, lines
53-93) with an empty configuration: interval 30 minutes, nothing synced,
logged out, idle. -/
def init_state : BlackboardSync :=
  { sync_interval := 1800
    next_sync := none
    logged_in := false
    force_flag := false
    syncing := false
    active := false
    config := { last_sync_time := none, download_location := ["Downloads"] }
    sess := none
    cookies := none
    last_sync := none
    error_log := []
    jobs_run := 0
    auth_calls := 0 }

/-- A child descriptor as returned by `fetch_content_children`
(folder.py lines 20-24): only the content-handler presence matters for
the eligibility filter. -/
structure RawChild where
  id : Nat
  contentHandler : Option String
deriving Repr, DecidableEq

/-- An eligible child of a folder (a constructed `cont.Content`;
its internals live outside the provided sources, so only its identity is
kept — its `write` is recorded as an issued event, not expanded). -/
structure Content where
  id : Nat
deriving Repr, DecidableEq

/-- `Folder` (folder.py lines 12-24): the children list built at
construction. -/
structure Folder where
  children : List Content
deriving Repr, DecidableEq

/-- The `Folder.__init__` filter (folder.py lines 20-24): each fetched
child whose `contentHandler` is not `None` becomes a `Content` child;
the rest are dropped. -/
def Folder.ofChildren (raw : List RawChild) : Folder :=
  ⟨(raw.filter fun c => c.contentHandler.isSome).map fun c => ⟨c.id⟩⟩

/-- Filesystem-visible events of `Folder.write`: the folder's own
`path.mkdir(exist_ok=True, parents=True)`, and each child's `write`
being issued on `path`. -/
inductive FsEvent where
  | mkdirParents (p : List String)
  | childWrite (cid : Nat) (p : List String)
deriving Repr, DecidableEq

/-- `Folder.write` (folder.py lines 26-31): make the directory (parents
included) only when the children list is non-empty, then issue every
child's write. -/
def Folder.write (f : Folder) (path : List String) : List FsEvent :=
  (if f.children.isEmpty then [] else [.mkdirParents path])
    ++ f.children.map fun c => .childWrite c.id path

/-- A scheduler with an active loop and a logged-in session, nothing
synced yet (the state right after a first successful `auth`). -/
def run_state : BlackboardSync :=
  { init_state with active := true, logged_in := true, sess := some 1 }

/-- `run_state` after a sync completed at instant 0 was recorded through
the `last_sync_time` setter: `next_sync` is 0 + 1800. -/
def synced_state : BlackboardSync :=
  { run_state with
    config := { last_sync_time := some 0, download_location := ["Downloads"] }
    next_sync := some 1800 }

/-- `run_state` with the credential that `auth` stored in `_cookies`. -/
def cookie_state : BlackboardSync :=
  { run_state with cookies := some 7 }

/-- C1: the claim says that on job success `last_sync_time` is set to the
job-start instant, `next_sync_time` is recomputed, and the failure counter
resets. Evaluating the embedded loop body on a successful job shows the
code instead assigns the returned instant to the stray attribute
`last_sync` (sync.py line 139; the property is named `last_sync_time`), so
`last_sync_time` and `next_sync` stay unchanged; only the counter reset
happens. -/
theorem C1_success_does_not_update_last_sync_time :
    (sync_step run_state ⟨false, 0⟩ 100 (.success 100)).2.2 = none
    ∧ (sync_step run_state ⟨false, 0⟩ 100 (.success 100)).1.config.last_sync_time = none
    ∧ (sync_step run_state ⟨false, 0⟩ 100 (.success 100)).1.next_sync = none
    ∧ (sync_step run_state ⟨false, 0⟩ 100 (.success 100)).1.last_sync = some 100
    ∧ (sync_step run_state ⟨false, 0⟩ 100 (.success 100)).2.1.failed_attempts = 0 := by
  decide

/-- C2: `outdated` is true iff `last_sync_time` is unset or the current
time is at least `next_sync` (which, in any state where it was computed,
is `last_sync_time` plus `sync_interval` seconds); with
`last_sync_time = t0` and a 1800-second interval it is false at
`t0 + 1700` and true at `t0 + 1801`. -/
theorem C2_outdated_iff (s : BlackboardSync) (t0 now : Int)
    (hl : s.config.last_sync_time = some t0)
    (hn : s.next_sync = some (t0 + s.sync_interval)) :
    (outdated s now = .ok true ↔ now ≥ t0 + s.sync_interval)
    ∧ (∀ s2 : BlackboardSync, s2.config.last_sync_time = none →
        ∀ m : Int, outdated s2 m = .ok true)
    ∧ (s.sync_interval = 1800 →
        outdated s (t0 + 1700) = .ok false ∧ outdated s (t0 + 1801) = .ok true) := by
  refine ⟨?_, ?_, ?_⟩
  · simp [outdated, hl, hn]
  · intro s2 h m
    simp [outdated, h]
  · intro hi
    rw [hi] at hn
    constructor
    · simp only [outdated, hl, hn]
      have : ¬ (t0 + 1700 ≥ t0 + 1800) := by omega
      simp [this]
    · simp only [outdated, hl, hn]
      have : t0 + 1801 ≥ t0 + 1800 := by omega
      simp [this]

/-- C2 witness: the theorem applied to a state synced at instant 0 with
the default 1800-second interval. -/
theorem C2_outdated_iff_witness :
    outdated synced_state 1700 = .ok false ∧ outdated synced_state 1801 = .ok true := by
  have h := (C2_outdated_iff synced_state 0 0 rfl (by norm_num [synced_state, run_state, init_state])).2.2
    (by norm_num [synced_state, run_state, init_state])
  norm_num at h
  exact h

/-- C3: a folder node built from fetched children (those without a content
handler filtered out) creates no directory when it has no eligible child;
with at least one eligible child its `write` makes the directory first and
only then issues the children's writes. -/
theorem C3_folder_write_mkdir (raw : List RawChild) (path : List String) :
    ((Folder.ofChildren raw).children.isEmpty = true →
      (Folder.ofChildren raw).write path = [])
    ∧ ((Folder.ofChildren raw).children.isEmpty = false →
      (Folder.ofChildren raw).write path =
        FsEvent.mkdirParents path ::
          (Folder.ofChildren raw).children.map fun c => FsEvent.childWrite c.id path) := by
  constructor
  · intro h
    rw [List.isEmpty_eq_true] at h
    simp [Folder.write, h]
  · intro h
    simp [Folder.write, h]

/-- C3 witness: a folder whose only fetched child has no content handler
writes nothing; a folder with one eligible and one ineligible child makes
its directory and then issues the eligible child's write. -/
theorem C3_folder_write_mkdir_witness :
    (Folder.ofChildren [⟨1, none⟩]).write ["a"] = []
    ∧ (Folder.ofChildren [⟨1, some "h"⟩, ⟨2, none⟩]).write ["a"]
        = [.mkdirParents ["a"], .childWrite 1 ["a"]] := by
  constructor
  · exact (C3_folder_write_mkdir [⟨1, none⟩] ["a"]).1 (by decide)
  · have h := (C3_folder_write_mkdir [⟨1, some "h"⟩, ⟨2, none⟩] ["a"]).2 (by decide)
    simpa using h

/-- C4: the claim says `change_download_location(new_dir, redownload=True)`
with a different directory completes without error. Evaluating the
embedding shows the code stores the new directory and unsets
`last_sync_time`, but the setter then calls `_update_next_sync`, which
adds a timedelta to `None` and raises `TypeError`, so the call does not
complete without error. -/
theorem C4_change_location_redownload_raises :
    (change_download_location synced_state ["NewDir"] true).2 = some .typeError
    ∧ (change_download_location synced_state ["NewDir"] true).1.config.last_sync_time = none
    ∧ (change_download_location synced_state ["NewDir"] true).1.config.download_location
        = ["NewDir"] := by
  decide

/-- C5: three consecutive ticks whose jobs each raise a transient
`ConnectionError` drive `failed_attempts` to `max_retries = 3`, at which
point the scheduler logs out — the session is cleared and `is_logged_in`
becomes false — with no session-invalidation error having occurred; and
any tick whose job completes successfully resets the consecutive-failure
counter to 0. -/
theorem C5_circuit_breaker (s s2 : BlackboardSync) (l2 : LoopLocals)
    (v : Nat → Bool) (n1 n2 n3 m t : Int)
    (ha : s.active = true) (hl : s.config.last_sync_time = none) :
    ((sync_task v s
        [(n1, .connectionError), (n2, .connectionError), (n3, .connectionError)]).2 = none
     ∧ (sync_task v s
        [(n1, .connectionError), (n2, .connectionError), (n3, .connectionError)]).1.logged_in = false
     ∧ (sync_task v s
        [(n1, .connectionError), (n2, .connectionError), (n3, .connectionError)]).1.sess = none
     ∧ (sync_task v s
        [(n1, .connectionError), (n2, .connectionError), (n3, .connectionError)]).1.active = false)
    ∧ (s2.config.last_sync_time = none →
        (sync_step s2 l2 m (.success t)).2.1.failed_attempts = 0) := by
  constructor
  · obtain ⟨si, ns, li, ff, sy, ac, cfg, se, ck, ls, el, jr, au⟩ := s
    obtain ⟨cl, cd⟩ := cfg
    simp only at ha hl
    subst ha hl
    simp [sync_task, sync_task_go, sync_step, outdated, after_job, log_exception,
      log_out, stop_sync, max_retries]
  · intro h2
    obtain ⟨si, ns, li, ff, sy, ac, cfg, se, ck, ls, el, jr, au⟩ := s2
    obtain ⟨cl, cd⟩ := cfg
    simp only at h2
    subst h2
    simp [sync_step, outdated, after_job, max_retries]

/-- C5 witness: the theorem applied to an active, logged-in scheduler with
nothing synced; the success conjunct applied with a pending failure count
of 2. -/
theorem C5_circuit_breaker_witness :
    ((sync_task (fun _ => true) run_state
        [(0, .connectionError), (10, .connectionError), (20, .connectionError)]).1.logged_in = false)
    ∧ (sync_step run_state ⟨false, 2⟩ 5 (.success 7)).2.1.failed_attempts = 0 := by
  have h := C5_circuit_breaker run_state run_state ⟨false, 2⟩ (fun _ => true)
    0 10 20 5 7 rfl rfl
  exact ⟨h.1.2.1, h.2 rfl⟩

/-- C6: when a tick's job raises `ValueError` (session invalidation) the
scheduler logs out — session cleared, loop deactivated — and after the
loop exits it calls `auth` exactly once with the most recently supplied
credential; if that credential is accepted the scheduler is logged in and
the loop restarts, otherwise it stays logged out. -/
theorem C6_session_invalidation_single_reauth (v : Nat → Bool) (s : BlackboardSync)
    (jar : Nat) (n : Int) (ha : s.active = true)
    (hl : s.config.last_sync_time = none) (hc : s.cookies = some jar) :
    (sync_task v s [(n, .valueError)]).2 = none
    ∧ (sync_task v s [(n, .valueError)]).1.auth_calls = s.auth_calls + 1
    ∧ (v jar = true →
        (sync_task v s [(n, .valueError)]).1.logged_in = true
        ∧ (sync_task v s [(n, .valueError)]).1.active = true
        ∧ (sync_task v s [(n, .valueError)]).1.sess = some jar)
    ∧ (v jar = false →
        (sync_task v s [(n, .valueError)]).1.logged_in = false
        ∧ (sync_task v s [(n, .valueError)]).1.sess = none
        ∧ (sync_task v s [(n, .valueError)]).1.active = false) := by
  obtain ⟨si, ns, li, ff, sy, ac, cfg, se, ck, ls, el, jr, au⟩ := s
  obtain ⟨cl, cd⟩ := cfg
  simp only at ha hl hc
  subst ha hl hc
  cases hv : v jar <;>
    simp [sync_task, sync_task_go, sync_step, outdated, after_job, log_out,
      stop_sync, auth, BlackboardSession, start_sync, max_retries, hv]

/-- C6 witness: the theorem applied to an active scheduler holding
credential 7, once with an accepting oracle and once with a rejecting
one. -/
theorem C6_session_invalidation_single_reauth_witness :
    (sync_task (fun _ => true) cookie_state [(0, .valueError)]).1.logged_in = true
    ∧ (sync_task (fun _ => true) cookie_state [(0, .valueError)]).1.auth_calls = 1
    ∧ (sync_task (fun _ => false) cookie_state [(0, .valueError)]).1.logged_in = false := by
  have h1 := C6_session_invalidation_single_reauth (fun _ => true) cookie_state 7 0
    rfl rfl rfl
  have h2 := C6_session_invalidation_single_reauth (fun _ => false) cookie_state 7 0
    rfl rfl rfl
  exact ⟨(h1.2.2.1 rfl).1, h1.2.1, (h2.2.2.2 rfl).1⟩

/-- C7: the claim says every exception raised inside a tick's job is
recorded to the failure log sink and the loop keeps running. Evaluating
the embedding on a job that raises an exception that is neither
`ValueError` nor `ConnectionError` shows nothing is written to the sink
(`error_log` stays empty), the exception propagates out of `_sync_task`,
and the next tick never runs (only one job was ever invoked). -/
theorem C7_unhandled_exception_counterexample :
    (sync_task (fun _ => true) run_state [(0, .otherError), (10, .success 10)]).2
        = some .otherError
    ∧ (sync_task (fun _ => true) run_state [(0, .otherError), (10, .success 10)]).1.error_log = []
    ∧ (sync_task (fun _ => true) run_state [(0, .otherError), (10, .success 10)]).1.jobs_run = 1 := by
  simp [sync_task, sync_task_go, sync_step, outdated, after_job, run_state, init_state]

/-- C7 amended: only `ConnectionError` failures are recorded to the
failure log sink under `<download_location>/log` and leave the loop
running; an exception of any other unhandled kind propagates out of the
loop, terminating it, without being recorded to the sink. -/
theorem C7_connection_error_logged_loop_continues (s : BlackboardSync) (l : LoopLocals)
    (now : Int) (hl : s.config.last_sync_time = none)
    (hf : l.failed_attempts + 1 < max_retries) :
    ((sync_step s l now .connectionError).2.2 = none
     ∧ (sync_step s l now .connectionError).1.error_log
         = s.error_log ++ [s.config.download_location ++ ["log"]]
     ∧ (sync_step s l now .connectionError).1.active = s.active
     ∧ (sync_step s l now .connectionError).1.logged_in = s.logged_in)
    ∧ ((sync_step s l now .otherError).2.2 = some .otherError
       ∧ (sync_step s l now .otherError).1.error_log = s.error_log) := by
  have hlt : ¬ (l.failed_attempts + 1 ≥ max_retries) := by omega
  obtain ⟨si, ns, li, ff, sy, ac, cfg, se, ck, ls, el, jr, au⟩ := s
  obtain ⟨cl, cd⟩ := cfg
  simp only at hl
  subst hl
  simp [sync_step, outdated, after_job, log_exception, hlt]

/-- C7 amended witness: the amended theorem applied to an active scheduler
with no prior failures. -/
theorem C7_connection_error_logged_loop_continues_witness :
    (sync_step run_state ⟨false, 0⟩ 0 .connectionError).1.error_log
        = [["Downloads", "log"]]
    ∧ (sync_step run_state ⟨false, 0⟩ 0 .connectionError).1.active = true
    ∧ (sync_step run_state ⟨false, 0⟩ 0 .otherError).2.2 = some .otherError := by
  have h := C7_connection_error_logged_loop_continues run_state ⟨false, 0⟩ 0 rfl
    (by decide)
  refine ⟨?_, ?_, h.2.1⟩
  · have h2 := h.1.2.1
    simpa [run_state, init_state] using h2
  · have h3 := h.1.2.2.1
    simpa [run_state, init_state] using h3

/-- C8: the claim says the force-sync flag is cleared after the attempt
regardless of how the job ends. Evaluating the embedding on a forced tick
(with `outdated` false) whose job raises an unhandled exception shows the
job is triggered but the flag is still set afterwards, because the
clearing statement is never reached. -/
theorem C8_force_flag_survives_counterexample :
    outdated (force_sync synced_state) 100 = .ok false
    ∧ (sync_step (force_sync synced_state) ⟨false, 0⟩ 100 .otherError).1.jobs_run = 1
    ∧ (sync_step (force_sync synced_state) ⟨false, 0⟩ 100 .otherError).1.force_flag = true
    ∧ (sync_step (force_sync synced_state) ⟨false, 0⟩ 100 .otherError).2.2
        = some .otherError := by
  exact ⟨rfl, rfl, rfl, rfl⟩

/-- C8 amended: after `force_sync()` the next tick triggers a download job
even when `outdated` is false, and the flag is cleared after the attempt
whenever the job succeeds or fails with one of the handled exceptions
(session invalidation or connectivity failure); a job raising any other
exception aborts the tick with the flag still set. -/
theorem C8_forced_tick_triggers_job (s : BlackboardSync) (l : LoopLocals)
    (now : Int) (job : JobResult)
    (ho : outdated s now = .ok false) (hj : job ≠ .otherError) :
    (sync_step (force_sync s) l now job).1.jobs_run = s.jobs_run + 1
    ∧ (sync_step (force_sync s) l now job).1.force_flag = false
    ∧ (sync_step (force_sync s) l now job).2.2 = none := by
  have ho2 : outdated (force_sync s) now = .ok false := ho
  cases job with
  | success t =>
    unfold sync_step
    rw [ho2]
    simp [force_sync, after_job, log_out, stop_sync, max_retries,
      apply_ite (f := BlackboardSync.jobs_run), apply_ite (f := BlackboardSync.force_flag)]
  | valueError =>
    unfold sync_step
    rw [ho2]
    simp [force_sync, after_job, log_out, stop_sync, max_retries,
      apply_ite (f := BlackboardSync.jobs_run), apply_ite (f := BlackboardSync.force_flag)]
  | connectionError =>
    unfold sync_step
    rw [ho2]
    simp [force_sync, after_job, log_exception, log_out, stop_sync, max_retries,
      apply_ite (f := BlackboardSync.jobs_run), apply_ite (f := BlackboardSync.force_flag)]
  | otherError => exact absurd rfl hj

/-- C8 amended witness: the amended theorem applied to a synced state that
is not outdated at time 100, with a successful job. -/
theorem C8_forced_tick_triggers_job_witness :
    (sync_step (force_sync synced_state) ⟨false, 0⟩ 100 (.success 50)).1.jobs_run = 1
    ∧ (sync_step (force_sync synced_state) ⟨false, 0⟩ 100 (.success 50)).1.force_flag = false
    ∧ (sync_step (force_sync synced_state) ⟨false, 0⟩ 100 (.success 50)).2.2 = none := by
  have h := C8_forced_tick_triggers_job synced_state ⟨false, 0⟩ 100 (.success 50)
    rfl (by decide)
  simpa [synced_state, run_state, init_state] using h

/-- C9: calling `change_download_location` with the current download
location returns with no exception and the state completely unchanged —
in particular `last_sync_time` and `next_sync` are untouched even when
`redownload` is true, so no full re-download is triggered. -/
theorem C9_same_dir_no_change (s : BlackboardSync) (redownload : Bool) :
    change_download_location s s.config.download_location redownload = (s, none) := by
  simp [change_download_location]

/-- C9 witness: the theorem applied to a synced state with
`redownload = true`. -/
theorem C9_same_dir_no_change_witness :
    change_download_location synced_state ["Downloads"] true = (synced_state, none) := by
  exact C9_same_dir_no_change synced_state true

/-- C10: `auth` stores the supplied cookie jar in `_cookies` before
validating it — also when session creation fails — and returns the
current `is_logged_in` value rather than the attempt's outcome: with an
invalid credential while already logged in it returns true, keeps the
previous session, and still replaces the remembered credential. -/
theorem C10_auth_stores_credential (v : Nat → Bool) (s : BlackboardSync) (jar : Nat) :
    (auth v s jar).2.cookies = some jar
    ∧ (auth v s jar).1 = (auth v s jar).2.logged_in
    ∧ (v jar = false →
        (auth v s jar).1 = s.logged_in
        ∧ (auth v s jar).2.sess = s.sess
        ∧ (auth v s jar).2.logged_in = s.logged_in)
    ∧ (v jar = false → s.logged_in = true → (auth v s jar).1 = true) := by
  cases hv : v jar <;>
    simp [auth, BlackboardSession, start_sync, hv]

/-- C10 witness: the theorem applied to a logged-in scheduler and a
rejected credential 9: `auth` returns true, keeps the session, and the
remembered credential becomes 9. -/
theorem C10_auth_stores_credential_witness :
    (auth (fun _ => false) cookie_state 9).2.cookies = some 9
    ∧ (auth (fun _ => false) cookie_state 9).1 = true
    ∧ (auth (fun _ => false) cookie_state 9).2.sess = some 1 := by
  have h := C10_auth_stores_credential (fun _ => false) cookie_state 9
  exact ⟨h.1, h.2.2.2 rfl rfl, (h.2.2.1 rfl).2.1⟩
